import Mathlib

/-!
Verification of `src/config/mpich2.h` from the mpi4py binding layer.

The header is pure preprocessor text, so we embed the compile-time state of
one C compilation unit as far as this header can observe or modify it, and
the act of processing (including) the header as a state transformer.
A `#define N` with no replacement is only ever performed here on the include
guard, which is tracked as a `Bool`; `MPICH2_NUMVERSION` is supplied by the
MPI implementation's own headers as an integer literal, so it is tracked as
`Option Int` (`none` = undefined).  Redefinition by `#define` overwrites the
previous replacement list, as the mainstream preprocessors (gcc, clang, MSVC)
do, diagnosing a warning.
-/

/-- Compile-time state of one compilation unit, restricted to what
`src/config/mpich2.h` reads or writes.  `other` carries every macro the
header never mentions; `ioIncludeCount` counts textual inclusions of the
supplementary header `mpich2io.h`; `f90DefineCount` counts executions of the
block that defines the three `PyMPI_MISSING_MPI_TYPE_CREATE_F90_*` flags. -/
structure CppState where
  pympiConfigMpich2hDefined : Bool
  msWindowsDefined : Bool
  mpich2Numversion : Option Int
  romioVersionDefined : Bool
  missingF90Integer : Option Int
  missingF90Real : Option Int
  missingF90Complex : Option Int
  other : String → Option Int
  ioIncludeCount : Nat
  f90DefineCount : Nat

/-- The condition of line 5 of the header,
`#if !defined(MPICH2_NUMVERSION) || (MPICH2_NUMVERSION < 10100000)`. -/
def versionBelowThreshold : Option Int → Bool
  | none => true
  | some v => decide (v < 10100000)

/-- Modelled from the spec: the supplementary header `mpich2io.h` is not among
the provided sources.  Per the spec it only makes the ROMIO I/O declarations
visible in the compilation unit ("the supplementary header's declarations must
become visible"), so its inclusion is modelled as incrementing the inclusion
counter while leaving the macro state untouched. -/
def includeMpich2io (s : CppState) : CppState :=
  { s with ioIncludeCount := s.ioIncludeCount + 1 }

/-- Lines 4-10 of the header: under `#ifdef MS_WINDOWS`, if
`MPICH2_NUMVERSION` is undefined or below `10100000`, define the three
capability-absence flags, each with replacement `1`. -/
def applyF90Guard (s : CppState) : CppState :=
  if s.msWindowsDefined then
    if versionBelowThreshold s.mpich2Numversion then
      { s with
          missingF90Integer := some 1
          missingF90Real := some 1
          missingF90Complex := some 1
          f90DefineCount := s.f90DefineCount + 1 }
    else s
  else s

/-- Lines 12-14 of the header: `#ifndef ROMIO_VERSION` include `mpich2io.h`. -/
def applyRomioGuard (s : CppState) : CppState :=
  if s.romioVersionDefined then s else includeMpich2io s

/-- Processing (including) `src/config/mpich2.h` once: if the include guard
`PyMPI_CONFIG_MPICH2_H` is already defined the whole body is skipped;
otherwise the guard is defined and the two conditional blocks run in
sequence. -/
def processMpich2Header (s : CppState) : CppState :=
  if s.pympiConfigMpich2hDefined then s
  else
    applyRomioGuard (applyF90Guard { s with pympiConfigMpich2hDefined := true })

/-- A fresh compilation unit on the designated platform: `MS_WINDOWS` defined,
`MPICH2_NUMVERSION` undefined, no ROMIO sentinel, none of the header-owned
macros defined yet. -/
def freshWin : CppState :=
  { pympiConfigMpich2hDefined := false
    msWindowsDefined := true
    mpich2Numversion := none
    romioVersionDefined := false
    missingF90Integer := none
    missingF90Real := none
    missingF90Complex := none
    other := fun _ => none
    ioIncludeCount := 0
    f90DefineCount := 0 }

/-- Like `freshWin` but with `MPICH2_NUMVERSION` defined below the threshold. -/
def belowWin : CppState := { freshWin with mpich2Numversion := some 0 }

/-- Like `freshWin` but with `MPICH2_NUMVERSION` defined at the threshold. -/
def atWin : CppState := { freshWin with mpich2Numversion := some 10100000 }

/-- Like `freshWin` but off the designated platform. -/
def notWin : CppState := { freshWin with msWindowsDefined := false }

/-- Like `freshWin` but with the ROMIO sentinel already defined. -/
def romioWin : CppState := { freshWin with romioVersionDefined := true }

/-- Environment in which the three capability-absence flags were predefined
(for instance on the compiler command line) although `MS_WINDOWS` is not
defined. -/
def c1State : CppState :=
  { freshWin with
      msWindowsDefined := false
      romioVersionDefined := true
      missingF90Integer := some 1
      missingF90Real := some 1
      missingF90Complex := some 1 }

/-- Environment in which the include guard was predefined (for instance on the
compiler command line) while the platform and version conditions hold. -/
def c2State : CppState :=
  { freshWin with
      pympiConfigMpich2hDefined := true
      mpich2Numversion := some 0
      romioVersionDefined := true }

/-- Environment with the include guard predefined and `MPICH2_NUMVERSION`
entirely undefined. -/
def c5State : CppState :=
  { freshWin with
      pympiConfigMpich2hDefined := true
      romioVersionDefined := true }

/-- Environment with the include guard predefined and the ROMIO sentinel
absent. -/
def c7State : CppState :=
  { freshWin with pympiConfigMpich2hDefined := true }

/-- Environment in which one pre-existing macro, a capability-absence flag,
holds the value `2` while the platform and version conditions make the header
redefine it. -/
def c10State : CppState :=
  { freshWin with
      romioVersionDefined := true
      missingF90Integer := some 2
      missingF90Real := some 2
      missingF90Complex := some 2 }

section HelperLemmas

@[simp]
lemma applyF90Guard_missingF90Integer (s : CppState) :
    (applyF90Guard s).missingF90Integer =
      if s.msWindowsDefined && versionBelowThreshold s.mpich2Numversion
        then some 1 else s.missingF90Integer := by
  unfold applyF90Guard
  cases hm : s.msWindowsDefined <;>
    cases hv : versionBelowThreshold s.mpich2Numversion <;> simp [hm, hv]

@[simp]
lemma applyF90Guard_missingF90Real (s : CppState) :
    (applyF90Guard s).missingF90Real =
      if s.msWindowsDefined && versionBelowThreshold s.mpich2Numversion
        then some 1 else s.missingF90Real := by
  unfold applyF90Guard
  cases hm : s.msWindowsDefined <;>
    cases hv : versionBelowThreshold s.mpich2Numversion <;> simp [hm, hv]

@[simp]
lemma applyF90Guard_missingF90Complex (s : CppState) :
    (applyF90Guard s).missingF90Complex =
      if s.msWindowsDefined && versionBelowThreshold s.mpich2Numversion
        then some 1 else s.missingF90Complex := by
  unfold applyF90Guard
  cases hm : s.msWindowsDefined <;>
    cases hv : versionBelowThreshold s.mpich2Numversion <;> simp [hm, hv]

@[simp]
lemma applyF90Guard_f90DefineCount (s : CppState) :
    (applyF90Guard s).f90DefineCount =
      if s.msWindowsDefined && versionBelowThreshold s.mpich2Numversion
        then s.f90DefineCount + 1 else s.f90DefineCount := by
  unfold applyF90Guard
  cases hm : s.msWindowsDefined <;>
    cases hv : versionBelowThreshold s.mpich2Numversion <;> simp [hm, hv]

@[simp]
lemma applyF90Guard_pympi (s : CppState) :
    (applyF90Guard s).pympiConfigMpich2hDefined = s.pympiConfigMpich2hDefined := by
  unfold applyF90Guard
  split
  case isTrue h => split <;> rfl
  case isFalse h => rfl

@[simp]
lemma applyF90Guard_msWindows (s : CppState) :
    (applyF90Guard s).msWindowsDefined = s.msWindowsDefined := by
  unfold applyF90Guard
  split
  case isTrue h => split <;> rfl
  case isFalse h => rfl

@[simp]
lemma applyF90Guard_numversion (s : CppState) :
    (applyF90Guard s).mpich2Numversion = s.mpich2Numversion := by
  unfold applyF90Guard
  split
  case isTrue h => split <;> rfl
  case isFalse h => rfl

@[simp]
lemma applyF90Guard_romio (s : CppState) :
    (applyF90Guard s).romioVersionDefined = s.romioVersionDefined := by
  unfold applyF90Guard
  split
  case isTrue h => split <;> rfl
  case isFalse h => rfl

@[simp]
lemma applyF90Guard_other (s : CppState) :
    (applyF90Guard s).other = s.other := by
  unfold applyF90Guard
  split
  case isTrue h => split <;> rfl
  case isFalse h => rfl

@[simp]
lemma applyF90Guard_ioIncludeCount (s : CppState) :
    (applyF90Guard s).ioIncludeCount = s.ioIncludeCount := by
  unfold applyF90Guard
  split
  case isTrue h => split <;> rfl
  case isFalse h => rfl

@[simp]
lemma applyRomioGuard_ioIncludeCount (s : CppState) :
    (applyRomioGuard s).ioIncludeCount =
      if s.romioVersionDefined then s.ioIncludeCount else s.ioIncludeCount + 1 := by
  unfold applyRomioGuard includeMpich2io
  cases hr : s.romioVersionDefined <;> simp [hr]

@[simp]
lemma applyRomioGuard_pympi (s : CppState) :
    (applyRomioGuard s).pympiConfigMpich2hDefined = s.pympiConfigMpich2hDefined := by
  unfold applyRomioGuard includeMpich2io; split <;> rfl

@[simp]
lemma applyRomioGuard_msWindows (s : CppState) :
    (applyRomioGuard s).msWindowsDefined = s.msWindowsDefined := by
  unfold applyRomioGuard includeMpich2io; split <;> rfl

@[simp]
lemma applyRomioGuard_numversion (s : CppState) :
    (applyRomioGuard s).mpich2Numversion = s.mpich2Numversion := by
  unfold applyRomioGuard includeMpich2io; split <;> rfl

@[simp]
lemma applyRomioGuard_romio (s : CppState) :
    (applyRomioGuard s).romioVersionDefined = s.romioVersionDefined := by
  unfold applyRomioGuard includeMpich2io; split <;> rfl

@[simp]
lemma applyRomioGuard_missingF90Integer (s : CppState) :
    (applyRomioGuard s).missingF90Integer = s.missingF90Integer := by
  unfold applyRomioGuard includeMpich2io; split <;> rfl

@[simp]
lemma applyRomioGuard_missingF90Real (s : CppState) :
    (applyRomioGuard s).missingF90Real = s.missingF90Real := by
  unfold applyRomioGuard includeMpich2io; split <;> rfl

@[simp]
lemma applyRomioGuard_missingF90Complex (s : CppState) :
    (applyRomioGuard s).missingF90Complex = s.missingF90Complex := by
  unfold applyRomioGuard includeMpich2io; split <;> rfl

@[simp]
lemma applyRomioGuard_other (s : CppState) :
    (applyRomioGuard s).other = s.other := by
  unfold applyRomioGuard includeMpich2io; split <;> rfl

@[simp]
lemma applyRomioGuard_f90DefineCount (s : CppState) :
    (applyRomioGuard s).f90DefineCount = s.f90DefineCount := by
  unfold applyRomioGuard includeMpich2io; split <;> rfl

lemma process_of_guarded (s : CppState) (h : s.pympiConfigMpich2hDefined = true) :
    processMpich2Header s = s := by
  unfold processMpich2Header; simp [h]

lemma process_pympi (s : CppState) :
    (processMpich2Header s).pympiConfigMpich2hDefined = true := by
  unfold processMpich2Header
  cases hg : s.pympiConfigMpich2hDefined <;> simp [hg]

lemma process_missingF90Integer (s : CppState) :
    (processMpich2Header s).missingF90Integer =
      if s.pympiConfigMpich2hDefined then s.missingF90Integer
      else if s.msWindowsDefined && versionBelowThreshold s.mpich2Numversion
        then some 1 else s.missingF90Integer := by
  unfold processMpich2Header
  cases hg : s.pympiConfigMpich2hDefined <;> simp [hg]

lemma process_missingF90Real (s : CppState) :
    (processMpich2Header s).missingF90Real =
      if s.pympiConfigMpich2hDefined then s.missingF90Real
      else if s.msWindowsDefined && versionBelowThreshold s.mpich2Numversion
        then some 1 else s.missingF90Real := by
  unfold processMpich2Header
  cases hg : s.pympiConfigMpich2hDefined <;> simp [hg]

lemma process_missingF90Complex (s : CppState) :
    (processMpich2Header s).missingF90Complex =
      if s.pympiConfigMpich2hDefined then s.missingF90Complex
      else if s.msWindowsDefined && versionBelowThreshold s.mpich2Numversion
        then some 1 else s.missingF90Complex := by
  unfold processMpich2Header
  cases hg : s.pympiConfigMpich2hDefined <;> simp [hg]

lemma process_f90DefineCount (s : CppState) :
    (processMpich2Header s).f90DefineCount =
      if s.pympiConfigMpich2hDefined then s.f90DefineCount
      else if s.msWindowsDefined && versionBelowThreshold s.mpich2Numversion
        then s.f90DefineCount + 1 else s.f90DefineCount := by
  unfold processMpich2Header
  cases hg : s.pympiConfigMpich2hDefined <;> simp [hg]

lemma process_ioIncludeCount (s : CppState) :
    (processMpich2Header s).ioIncludeCount =
      if s.pympiConfigMpich2hDefined then s.ioIncludeCount
      else if s.romioVersionDefined then s.ioIncludeCount else s.ioIncludeCount + 1 := by
  unfold processMpich2Header
  cases hg : s.pympiConfigMpich2hDefined <;> simp [hg]

lemma process_msWindows (s : CppState) :
    (processMpich2Header s).msWindowsDefined = s.msWindowsDefined := by
  unfold processMpich2Header
  cases hg : s.pympiConfigMpich2hDefined <;> simp [hg]

lemma process_numversion (s : CppState) :
    (processMpich2Header s).mpich2Numversion = s.mpich2Numversion := by
  unfold processMpich2Header
  cases hg : s.pympiConfigMpich2hDefined <;> simp [hg]

lemma process_romio (s : CppState) :
    (processMpich2Header s).romioVersionDefined = s.romioVersionDefined := by
  unfold processMpich2Header
  cases hg : s.pympiConfigMpich2hDefined <;> simp [hg]

lemma process_other (s : CppState) :
    (processMpich2Header s).other = s.other := by
  unfold processMpich2Header
  cases hg : s.pympiConfigMpich2hDefined <;> simp [hg]

lemma process_iterate_succ (n : Nat) (s : CppState) :
    Nat.iterate processMpich2Header (n + 1) s = processMpich2Header s := by
  induction n with
  | zero => rfl
  | succ m ih =>
      rw [Function.iterate_succ_apply', ih,
        process_of_guarded _ (process_pympi s)]

end HelperLemmas

/-- Claim C1 (counterexample): the invariant is quantified over every initial
compile-time environment, but in an environment where the three
capability-absence flags were predefined (e.g. on the compiler command line)
while `MS_WINDOWS` is undefined, the flags are still defined after processing
although the platform condition fails, so the stated equivalence is false. -/
theorem mpich2_flags_iff_falsified :
    ((processMpich2Header c1State).missingF90Integer.isSome = true ∧
     (processMpich2Header c1State).missingF90Real.isSome = true ∧
     (processMpich2Header c1State).missingF90Complex.isSome = true) ∧
    c1State.msWindowsDefined = false :=
  ⟨⟨rfl, rfl, rfl⟩, rfl⟩

/-- Claim C1 (amended): in every initial environment in which the header-owned
macros (the include guard and the three capability-absence flags) are not
predefined, after processing the header the three flags are defined if and
only if `MS_WINDOWS` is defined and `MPICH2_NUMVERSION` is undefined or below
`10100000`; moreover the defining block runs at most once per compilation
unit, over any number of repeated inclusions. -/
theorem mpich2_flags_iff_of_fresh (s : CppState) (n : Nat)
    (hg : s.pympiConfigMpich2hDefined = false)
    (hi : s.missingF90Integer = none)
    (hr : s.missingF90Real = none)
    (hc : s.missingF90Complex = none)
    (h0 : s.f90DefineCount = 0) :
    (((processMpich2Header s).missingF90Integer.isSome = true ∧
      (processMpich2Header s).missingF90Real.isSome = true ∧
      (processMpich2Header s).missingF90Complex.isSome = true) ↔
      (s.msWindowsDefined = true ∧
        versionBelowThreshold s.mpich2Numversion = true)) ∧
    (Nat.iterate processMpich2Header n s).f90DefineCount ≤ 1 := by
  constructor
  · rw [process_missingF90Integer, process_missingF90Real,
      process_missingF90Complex, hg, hi, hr, hc]
    cases hm : s.msWindowsDefined <;>
      cases hv : versionBelowThreshold s.mpich2Numversion <;> simp [hm, hv]
  · cases n with
    | zero =>
        show s.f90DefineCount ≤ 1
        rw [h0]
        exact Nat.zero_le 1
    | succ m =>
        rw [process_iterate_succ, process_f90DefineCount, hg, h0]
        split
        · exact Nat.zero_le 1
        · split
          · exact Nat.le_refl 1
          · exact Nat.zero_le 1

/-- Witness for the amended claim C1, at a fresh unit on the designated
platform with the version macro undefined, processed twice. -/
theorem mpich2_flags_iff_of_fresh_witness :
    (freshWin.pympiConfigMpich2hDefined = false ∧
     freshWin.missingF90Integer = none ∧
     freshWin.missingF90Real = none ∧
     freshWin.missingF90Complex = none ∧
     freshWin.f90DefineCount = 0) ∧
    ((((processMpich2Header freshWin).missingF90Integer.isSome = true ∧
       (processMpich2Header freshWin).missingF90Real.isSome = true ∧
       (processMpich2Header freshWin).missingF90Complex.isSome = true) ↔
       (freshWin.msWindowsDefined = true ∧
         versionBelowThreshold freshWin.mpich2Numversion = true)) ∧
     (Nat.iterate processMpich2Header 2 freshWin).f90DefineCount ≤ 1) :=
  ⟨⟨rfl, rfl, rfl, rfl, rfl⟩,
    mpich2_flags_iff_of_fresh freshWin 2 rfl rfl rfl rfl rfl⟩

/-- Claim C2 (counterexample): in an environment where the include guard
`PyMPI_CONFIG_MPICH2_H` was predefined (e.g. on the compiler command line),
the whole body is skipped even though `MS_WINDOWS` is defined and the version
is below the threshold, so processing does not define the three markers. -/
theorem mpich2_below_defines_falsified :
    c2State.msWindowsDefined = true ∧
    c2State.mpich2Numversion = some 0 ∧
    (0 : Int) < 10100000 ∧
    (processMpich2Header c2State).missingF90Integer = none ∧
    (processMpich2Header c2State).missingF90Real = none ∧
    (processMpich2Header c2State).missingF90Complex = none :=
  ⟨rfl, rfl, by decide, rfl, rfl, rfl⟩

/-- Claim C2 (amended): when additionally the include guard is not yet
defined, in every environment where `MS_WINDOWS` is defined and
`MPICH2_NUMVERSION` carries a value strictly below `10100000`, processing the
header defines all three capability-absence markers (with value `1`). -/
theorem mpich2_below_defines_all (s : CppState) (v : Int)
    (hg : s.pympiConfigMpich2hDefined = false)
    (hm : s.msWindowsDefined = true)
    (hv : s.mpich2Numversion = some v)
    (hlt : v < 10100000) :
    (processMpich2Header s).missingF90Integer = some 1 ∧
    (processMpich2Header s).missingF90Real = some 1 ∧
    (processMpich2Header s).missingF90Complex = some 1 := by
  have hb : versionBelowThreshold s.mpich2Numversion = true := by
    rw [hv]; simpa [versionBelowThreshold] using hlt
  rw [process_missingF90Integer, process_missingF90Real,
    process_missingF90Complex, hg, hm, hb]
  simp

/-- Witness for the amended claim C2 at a fresh unit with version `0`. -/
theorem mpich2_below_defines_all_witness :
    (belowWin.pympiConfigMpich2hDefined = false ∧
     belowWin.msWindowsDefined = true ∧
     belowWin.mpich2Numversion = some 0 ∧
     (0 : Int) < 10100000) ∧
    ((processMpich2Header belowWin).missingF90Integer = some 1 ∧
     (processMpich2Header belowWin).missingF90Real = some 1 ∧
     (processMpich2Header belowWin).missingF90Complex = some 1) :=
  ⟨⟨rfl, rfl, rfl, by decide⟩,
    mpich2_below_defines_all belowWin 0 rfl rfl rfl (by decide)⟩

/-- Claim C3: in every environment where `MS_WINDOWS` is defined and
`MPICH2_NUMVERSION` carries a value at or above `10100000`, processing the
header defines none of the three capability-absence markers: they are left
exactly as they were, and the defining block does not run. -/
theorem mpich2_atLeast_defines_none (s : CppState) (v : Int)
    (_hm : s.msWindowsDefined = true)
    (hv : s.mpich2Numversion = some v)
    (hge : 10100000 ≤ v) :
    (processMpich2Header s).missingF90Integer = s.missingF90Integer ∧
    (processMpich2Header s).missingF90Real = s.missingF90Real ∧
    (processMpich2Header s).missingF90Complex = s.missingF90Complex ∧
    (processMpich2Header s).f90DefineCount = s.f90DefineCount := by
  have hb : versionBelowThreshold s.mpich2Numversion = false := by
    rw [hv]; simp [versionBelowThreshold]; omega
  rw [process_missingF90Integer, process_missingF90Real,
    process_missingF90Complex, process_f90DefineCount, hb]
  simp

/-- Witness for claim C3 at a fresh unit with version exactly at the
threshold. -/
theorem mpich2_atLeast_defines_none_witness :
    (atWin.msWindowsDefined = true ∧
     atWin.mpich2Numversion = some 10100000 ∧
     (10100000 : Int) ≤ 10100000) ∧
    ((processMpich2Header atWin).missingF90Integer = atWin.missingF90Integer ∧
     (processMpich2Header atWin).missingF90Real = atWin.missingF90Real ∧
     (processMpich2Header atWin).missingF90Complex = atWin.missingF90Complex ∧
     (processMpich2Header atWin).f90DefineCount = atWin.f90DefineCount) :=
  ⟨⟨rfl, rfl, by decide⟩,
    mpich2_atLeast_defines_none atWin 10100000 rfl rfl (by decide)⟩

/-- Claim C4: in every environment where `MS_WINDOWS` is not defined,
whatever `MPICH2_NUMVERSION` holds, processing the header defines none of the
three capability-absence markers: they are left exactly as they were, and the
defining block does not run. -/
theorem mpich2_otherPlatform_defines_none (s : CppState)
    (hm : s.msWindowsDefined = false) :
    (processMpich2Header s).missingF90Integer = s.missingF90Integer ∧
    (processMpich2Header s).missingF90Real = s.missingF90Real ∧
    (processMpich2Header s).missingF90Complex = s.missingF90Complex ∧
    (processMpich2Header s).f90DefineCount = s.f90DefineCount := by
  rw [process_missingF90Integer, process_missingF90Real,
    process_missingF90Complex, process_f90DefineCount, hm]
  simp

/-- Witness for claim C4 at a fresh unit off the designated platform. -/
theorem mpich2_otherPlatform_defines_none_witness :
    notWin.msWindowsDefined = false ∧
    ((processMpich2Header notWin).missingF90Integer = notWin.missingF90Integer ∧
     (processMpich2Header notWin).missingF90Real = notWin.missingF90Real ∧
     (processMpich2Header notWin).missingF90Complex = notWin.missingF90Complex ∧
     (processMpich2Header notWin).f90DefineCount = notWin.f90DefineCount) :=
  ⟨rfl, mpich2_otherPlatform_defines_none notWin rfl⟩

/-- Claim C5 (counterexample): in an environment where the include guard
`PyMPI_CONFIG_MPICH2_H` was predefined (e.g. on the compiler command line),
the whole body is skipped even though `MS_WINDOWS` is defined and
`MPICH2_NUMVERSION` is entirely undefined, so processing does not define the
three markers. -/
theorem mpich2_undefVersion_falsified :
    c5State.msWindowsDefined = true ∧
    c5State.mpich2Numversion = none ∧
    (processMpich2Header c5State).missingF90Integer = none ∧
    (processMpich2Header c5State).missingF90Real = none ∧
    (processMpich2Header c5State).missingF90Complex = none :=
  ⟨rfl, rfl, rfl, rfl, rfl⟩

/-- Claim C5 (amended): when additionally the include guard is not yet
defined, in every environment where `MS_WINDOWS` is defined and
`MPICH2_NUMVERSION` is entirely undefined, the version condition is treated
as satisfied and processing the header defines all three capability-absence
markers (with value `1`). -/
theorem mpich2_undefVersion_defines_all (s : CppState)
    (hg : s.pympiConfigMpich2hDefined = false)
    (hm : s.msWindowsDefined = true)
    (hv : s.mpich2Numversion = none) :
    (processMpich2Header s).missingF90Integer = some 1 ∧
    (processMpich2Header s).missingF90Real = some 1 ∧
    (processMpich2Header s).missingF90Complex = some 1 := by
  have hb : versionBelowThreshold s.mpich2Numversion = true := by
    rw [hv]; rfl
  rw [process_missingF90Integer, process_missingF90Real,
    process_missingF90Complex, hg, hm, hb]
  simp

/-- Witness for the amended claim C5 at a fresh unit on the designated
platform with the version macro undefined. -/
theorem mpich2_undefVersion_defines_all_witness :
    (freshWin.pympiConfigMpich2hDefined = false ∧
     freshWin.msWindowsDefined = true ∧
     freshWin.mpich2Numversion = none) ∧
    ((processMpich2Header freshWin).missingF90Integer = some 1 ∧
     (processMpich2Header freshWin).missingF90Real = some 1 ∧
     (processMpich2Header freshWin).missingF90Complex = some 1) :=
  ⟨⟨rfl, rfl, rfl⟩, mpich2_undefVersion_defines_all freshWin rfl rfl rfl⟩

/-- Claim C6: in every environment where the sentinel `ROMIO_VERSION` is
already defined before the header is processed, processing does not include
the supplementary header `mpich2io.h`. -/
theorem mpich2_romio_present_no_include (s : CppState)
    (hr : s.romioVersionDefined = true) :
    (processMpich2Header s).ioIncludeCount = s.ioIncludeCount := by
  rw [process_ioIncludeCount, hr]
  simp

/-- Witness for claim C6 at a fresh unit with the ROMIO sentinel defined. -/
theorem mpich2_romio_present_no_include_witness :
    romioWin.romioVersionDefined = true ∧
    (processMpich2Header romioWin).ioIncludeCount = romioWin.ioIncludeCount :=
  ⟨rfl, mpich2_romio_present_no_include romioWin rfl⟩

/-- Claim C7 (counterexample): the claim quantifies over every environment in
which `ROMIO_VERSION` is absent, but when the include guard
`PyMPI_CONFIG_MPICH2_H` was predefined (e.g. on the compiler command line)
the body is skipped and `mpich2io.h` is included zero times, not exactly
once. -/
theorem mpich2_romio_absent_falsified :
    c7State.romioVersionDefined = false ∧
    c7State.ioIncludeCount = 0 ∧
    (processMpich2Header c7State).ioIncludeCount = 0 :=
  ⟨rfl, rfl, rfl⟩

/-- Claim C7 (amended): starting from a compilation unit in which
`ROMIO_VERSION` is absent, the include guard is not yet defined and
`mpich2io.h` has not been included, processing the header any positive number
of times includes `mpich2io.h` exactly once: the outer include guard prevents
a second inclusion via this header. -/
theorem mpich2_romio_absent_include_once (s : CppState) (n : Nat)
    (hr : s.romioVersionDefined = false)
    (hg : s.pympiConfigMpich2hDefined = false)
    (h0 : s.ioIncludeCount = 0)
    (hn : 1 ≤ n) :
    (Nat.iterate processMpich2Header n s).ioIncludeCount = 1 := by
  obtain ⟨m, rfl⟩ : ∃ m, n = m + 1 := ⟨n - 1, by omega⟩
  rw [process_iterate_succ, process_ioIncludeCount, hr, hg, h0]
  simp

/-- Witness for the amended claim C7 at a fresh unit processed three times. -/
theorem mpich2_romio_absent_include_once_witness :
    (freshWin.romioVersionDefined = false ∧
     freshWin.pympiConfigMpich2hDefined = false ∧
     freshWin.ioIncludeCount = 0 ∧
     1 ≤ 3) ∧
    (Nat.iterate processMpich2Header 3 freshWin).ioIncludeCount = 1 :=
  ⟨⟨rfl, rfl, rfl, by decide⟩,
    mpich2_romio_absent_include_once freshWin 3 rfl rfl rfl (by decide)⟩

/-- Claim C8: processing the header is idempotent within one compilation
unit: from every initial environment, processing it twice in sequence yields
exactly the same final state as processing it once, because the first pass
defines the include guard and a guarded pass is the identity. -/
theorem mpich2_process_idempotent (s : CppState) :
    processMpich2Header (processMpich2Header s) = processMpich2Header s :=
  process_of_guarded _ (process_pympi s)

/-- Claim C9: the two guards are independent.  Changing `MS_WINDOWS` and
`MPICH2_NUMVERSION` arbitrarily (all else equal) does not change how many
times processing includes `mpich2io.h`, and changing `ROMIO_VERSION` (all
else equal) does not change how many times processing runs the block defining
the three capability-absence markers. -/
theorem mpich2_guards_noninterference (s : CppState) (mw : Bool)
    (nv : Option Int) (rv : Bool) :
    ((processMpich2Header
        { s with msWindowsDefined := mw, mpich2Numversion := nv }).ioIncludeCount
        - ({ s with msWindowsDefined := mw, mpich2Numversion := nv } : CppState).ioIncludeCount
      = (processMpich2Header s).ioIncludeCount - s.ioIncludeCount) ∧
    ((processMpich2Header
        { s with romioVersionDefined := rv }).f90DefineCount
        - ({ s with romioVersionDefined := rv } : CppState).f90DefineCount
      = (processMpich2Header s).f90DefineCount - s.f90DefineCount) := by
  constructor
  · rw [process_ioIncludeCount, process_ioIncludeCount]
  · rw [process_f90DefineCount, process_f90DefineCount]

/-- Claim C10 (counterexample): processing the header can change the value of
a macro defined in the initial environment: a capability-absence flag
predefined with value `2` (e.g. on the compiler command line) is redefined to
`1` when the platform and version conditions hold. -/
theorem mpich2_frame_falsified :
    c10State.missingF90Integer = some 2 ∧
    (processMpich2Header c10State).missingF90Integer = some 1 :=
  ⟨rfl, rfl⟩

/-- Claim C10 (amended): processing the header never undefines a macro and
never changes any pre-existing macro except possibly the three
capability-absence flags, which it can only (re)define to `1`: `MS_WINDOWS`,
`MPICH2_NUMVERSION`, `ROMIO_VERSION` and every macro the header does not
mention are left untouched, the include guard is defined afterwards, and each
flag is either untouched or set to `1`. -/
theorem mpich2_frame_property (s : CppState) :
    (processMpich2Header s).msWindowsDefined = s.msWindowsDefined ∧
    (processMpich2Header s).mpich2Numversion = s.mpich2Numversion ∧
    (processMpich2Header s).romioVersionDefined = s.romioVersionDefined ∧
    (processMpich2Header s).other = s.other ∧
    (processMpich2Header s).pympiConfigMpich2hDefined = true ∧
    ((processMpich2Header s).missingF90Integer = s.missingF90Integer ∨
      (processMpich2Header s).missingF90Integer = some 1) ∧
    ((processMpich2Header s).missingF90Real = s.missingF90Real ∨
      (processMpich2Header s).missingF90Real = some 1) ∧
    ((processMpich2Header s).missingF90Complex = s.missingF90Complex ∨
      (processMpich2Header s).missingF90Complex = some 1) := by
  refine ⟨process_msWindows s, process_numversion s, process_romio s,
    process_other s, process_pympi s, ?_, ?_, ?_⟩
  · rw [process_missingF90Integer]
    split
    · exact Or.inl rfl
    · split
      · exact Or.inr rfl
      · exact Or.inl rfl
  · rw [process_missingF90Real]
    split
    · exact Or.inl rfl
    · split
      · exact Or.inr rfl
      · exact Or.inl rfl
  · rw [process_missingF90Complex]
    split
    · exact Or.inl rfl
    · split
      · exact Or.inr rfl
      · exact Or.inl rfl
